import Mathlib

/-!
Verification of the Polymarket market-maker bot control loop.

The Python source (src/main.py, src/services/auto_redeem.py) is embedded
shallowly: async methods become pure functions from an explicit environment
(the results the venue would return for each outbound call) and the bot
state to a new state plus the list of side-effecting actions the method
performs, in order.  Python floats are modelled as rationals (ℚ); Python
dicts holding numeric fields are association lists; `dict.get(k, d)`
becomes a lookup with default; a caught exception is an `Except.error`
branch of the environment that the embedded function maps to the same
fallback value the `except` clause produces.
-/

namespace PolyBot

/-- An orderbook dictionary: the numeric fields the bot reads
(`best_bid`, `best_ask`, `sequence`, ...), as an association list. -/
def Book := List (String × ℚ)
deriving DecidableEq, Inhabited

/-- `orderbook.get(key, default)` followed by `float(...)`. -/
def lookupD (b : Book) (k : String) (d : ℚ) : ℚ :=
  (List.lookup k b).getD d

/-- Python dict truthiness: `if not orderbook`. -/
def Book.isEmptyDict (b : Book) : Bool :=
  match b with
  | [] => true
  | _ :: _ => false

/-- A quote intent produced by the (external) QuoteEngine. -/
structure Quote where
  market : String
  token_id : String
  side : String
  price : ℚ
  size : ℚ
deriving DecidableEq

/-- An open order as returned by `GET /open-orders`: the two fields
`_cancel_stale_orders` reads, `order.get("timestamp", 0)` and
`order.get("id")` (both may be missing). -/
structure OpenOrder where
  timestamp : Option ℚ
  id : Option String
deriving DecidableEq

/-- A websocket `l2_book_update` message: the two fields the handler reads,
`data.get("market")` and `data.get("book", current)`. -/
structure BookMsg where
  market : Option String
  book : Option Book
deriving DecidableEq

/-- The `market_info` dict fields read by `refresh_quotes`. -/
structure MarketInfo where
  yes_token_id : Option String
  no_token_id : Option String

/-- The Settings fields the embedded methods consult. -/
structure Settings where
  market_id : String
  quote_refresh_rate_ms : ℚ
  order_lifetime_ms : ℚ
  cancel_replace_interval_ms : ℚ
  auto_redeem_enabled : Bool
  redeem_threshold_usd : ℚ

/-- Mutable bot state touched by `refresh_quotes`. -/
structure BotState where
  current_orderbook : Book
  last_quote_time : ℚ

/-- Outbound actions a quoting cycle performs, in program order. -/
inductive Event where
  /-- the REST book fetch issued by `update_orderbook` -/
  | fetchBook
  /-- `order_executor.batch_cancel_orders(ids)` -/
  | cancelBatch (ids : List (Option String))
  /-- `order_executor.place_order(...)` built from a quote -/
  | placeOrder (q : Quote) (outcome : String)
  /-- risk rejection: quote discarded, `quote_rejected` logged -/
  | rejectQuote (outcome : String) (reason : String)
deriving DecidableEq

/-- The per-cycle environment: what the venue and the external
QuoteEngine / RiskManager (modules not part of this repository's core
sources) would answer to each call the cycle makes. -/
structure Env where
  /-- wall clock `time.time() * 1000` at cycle start -/
  now : ℚ
  /-- result of `rest_client.get_orderbook` inside `update_orderbook`
  (`none` = the call raised; `update_orderbook` logs and keeps the book) -/
  fetchedBook : Option Book
  /-- `quote_engine.generate_quotes(market_id, best_bid, best_ask,
  yes_token_id, no_token_id)` -/
  genQuotes : String → ℚ → ℚ → String → String → Option Quote × Option Quote
  /-- `risk_manager.validate_order(side, notional)` -/
  validate : String → ℚ → Bool × String
  /-- result of `rest_client.get_open_orders` (`none` = the call raised;
  `_cancel_stale_orders` catches, logs, cancels nothing) -/
  openOrders : Option (List OpenOrder)

/-- `MarketMakerBot._handle_orderbook_update`: replace the current book by
the message's `book` field whenever the message's `market` equals the
configured market id; otherwise leave the book unchanged. -/
def handle_orderbook_update (market_id : String) (current : Book) (data : BookMsg) : Book :=
  if data.market = some market_id then data.book.getD current else current

/-- `now - order.get("timestamp", 0)`: the age used for stale cancellation. -/
def orderAge (now : ℚ) (o : OpenOrder) : ℚ :=
  now - o.timestamp.getD 0

/-- The orders `_cancel_stale_orders` selects: age strictly greater than
`order_lifetime_ms`. -/
def selectStale (lifetime now : ℚ) (orders : List OpenOrder) : List OpenOrder :=
  orders.filter (fun o => lifetime < orderAge now o)

/-- `MarketMakerBot._cancel_stale_orders`: fetch open orders (a raised
exception is caught and cancels nothing), select the aged ones, and issue
one batch cancel when the selection is nonempty. -/
def cancel_stale_orders (lifetime now : ℚ) (fetched : Option (List OpenOrder)) :
    List Event :=
  match fetched with
  | none => []
  | some orders =>
    let ids := (selectStale lifetime now orders).map OpenOrder.id
    if ids.isEmpty then [] else [Event.cancelBatch ids]

/-- `MarketMakerBot._place_quote`: validate the quote's notional
(`quote.size * quote.price`); on rejection log and return, otherwise
submit the order (a placement exception is caught and logged). -/
def place_quote (env : Env) (q : Quote) (outcome : String) : List Event :=
  let vr := env.validate q.side (q.size * q.price)
  if vr.1 then [Event.placeOrder q outcome] else [Event.rejectQuote outcome vr.2]

/-- Events for an optional quote (`if yes_quote: await self._place_quote(...)`). -/
def optional_quote_events (env : Env) (q? : Option Quote) (outcome : String) :
    List Event :=
  match q? with
  | some q => place_quote env q outcome
  | none => []

/-- The `if not orderbook: await self.update_orderbook()` step of
`refresh_quotes`: on an empty book, issue the REST fetch; on success the
book is replaced, on a raised exception it is kept. -/
def refreshFetch (env : Env) (st : BotState) : BotState × List Event :=
  if st.current_orderbook.isEmptyDict then
    match env.fetchedBook with
    | some b => ({ st with current_orderbook := b }, [Event.fetchBook])
    | none => (st, [Event.fetchBook])
  else (st, [])

/-- The tail of `refresh_quotes` after the book is settled: read
`best_bid`/`best_ask` with defaults 0 and 1, return early when
`best_bid <= 0 or best_ask <= 1`, otherwise generate quotes, cancel stale
orders, and place each produced quote. -/
def bookCycleEvents (s : Settings) (env : Env) (ob : Book) (mi : MarketInfo) :
    List Event :=
  if lookupD ob "best_bid" 0 ≤ 0 ∨ lookupD ob "best_ask" 1 ≤ 1 then []
  else
    cancel_stale_orders s.order_lifetime_ms env.now env.openOrders
      ++ optional_quote_events env
          (env.genQuotes s.market_id (lookupD ob "best_bid" 0) (lookupD ob "best_ask" 1)
            (mi.yes_token_id.getD "") (mi.no_token_id.getD "")).1 "YES"
      ++ optional_quote_events env
          (env.genQuotes s.market_id (lookupD ob "best_bid" 0) (lookupD ob "best_ask" 1)
            (mi.yes_token_id.getD "") (mi.no_token_id.getD "")).2 "NO"

/-- `MarketMakerBot.refresh_quotes`: throttle by `quote_refresh_rate_ms`,
refill an empty book over REST, validate the book, then cancel stale orders
and place the generated quotes.  Returns the new state and the outbound
actions in program order. -/
def refresh_quotes (s : Settings) (env : Env) (st : BotState) (mi : MarketInfo) :
    BotState × List Event :=
  if env.now - st.last_quote_time < s.quote_refresh_rate_ms then (st, [])
  else
    ((refreshFetch env { st with last_quote_time := env.now }).1,
     (refreshFetch env { st with last_quote_time := env.now }).2
       ++ bookCycleEvents s env
            (refreshFetch env { st with last_quote_time := env.now }).1.current_orderbook mi)

/-- Sleep performed at the end of one `run_cancel_replace_cycle` iteration:
`cancel_replace_interval_ms / 1000` seconds on success, a fixed 1 second in
the `except` branch. -/
def iterationSleep (s : Settings) (failed : Bool) : ℚ :=
  if failed then 1 else s.cancel_replace_interval_ms / 1000

/-- Sleeps over a run of `run_cancel_replace_cycle` iterations, each flagged
by whether it raised. -/
def loopSleeps (s : Settings) (outcomes : List Bool) : List ℚ :=
  outcomes.map (iterationSleep s)

/-- The backoff the spec describes: linearly increasing from 1 s, capped at
5 s over consecutive failures. -/
def specLinearBackoff (k : ℕ) : ℚ :=
  min (k : ℚ) 5

/-- Sleeps the spec's linear-backoff schedule would produce, tracking the
count of consecutive failures (this definition follows the spec's words,
for comparison with `loopSleeps`, which follows the code). -/
def specBackoffSleeps (s : Settings) : ℕ → List Bool → List ℚ
  | _, [] => []
  | k, failed :: rest =>
    if failed then specLinearBackoff (k + 1) :: specBackoffSleeps s (k + 1) rest
    else (s.cancel_replace_interval_ms / 1000) :: specBackoffSleeps s 0 rest

/-- The steps `MarketMakerBot.cleanup` performs, together with the signal
handler's flag write. -/
inductive ShutdownStep where
  /-- `self.running = False` -/
  | setRunningFalse
  /-- `await self.order_executor.cancel_all_orders(market_id)` -/
  | cancelAllOrders (market_id : String)
  /-- `await self.rest_client.close()` -/
  | closeRest
  /-- `await self.ws_client.close()` -/
  | closeWebSocket
  /-- `await self.order_executor.close()` -/
  | closeExecutor
  /-- `await self.auto_redeem.close()` -/
  | closeAutoRedeem
deriving DecidableEq

/-- `MarketMakerBot.cleanup`: the straight-line shutdown sequence. -/
def cleanup (market_id : String) : List ShutdownStep :=
  [ShutdownStep.setRunningFalse, ShutdownStep.cancelAllOrders market_id,
   ShutdownStep.closeRest, ShutdownStep.closeWebSocket,
   ShutdownStep.closeExecutor, ShutdownStep.closeAutoRedeem]

/-- Whether a shutdown step closes a transport or client. -/
def isTransportClose : ShutdownStep → Bool
  | ShutdownStep.closeRest => true
  | ShutdownStep.closeWebSocket => true
  | ShutdownStep.closeExecutor => true
  | ShutdownStep.closeAutoRedeem => true
  | _ => false

/-- A redeemable position as returned by `GET /positions`: the fields
`auto_redeem_all` reads, `position.get("value", 0)` and `position.get("id")`. -/
structure RPosition where
  value : Option ℚ
  id : Option String
deriving DecidableEq

/-- Venue requests `AutoRedeem` issues. -/
inductive RedeemReq where
  /-- `GET /positions?user=address&redeemable=true` -/
  | getPositions (address : String)
  /-- `POST /redeem/{position_id}` -/
  | postRedeem (position_id : Option String)
deriving DecidableEq

/-- Venue behaviour for one `auto_redeem_all` pass: the outcome of each
HTTP call it could make (an `Except.error` models a raised request error,
including non-2xx statuses surfaced by `raise_for_status`). -/
structure RedeemEnv where
  positionsResp : Except String (List RPosition)
  redeemResp : Option String → Except String Unit

/-- `AutoRedeem.check_redeemable_positions`: return the venue's list, or the
empty list when the request raised (the exception is caught and logged). -/
def check_redeemable_positions (env : RedeemEnv) : List RPosition :=
  match env.positionsResp with
  | Except.ok l => l
  | Except.error _ => []

/-- `AutoRedeem.redeem_position`: `true` on a successful POST, `false` when
the request raised (the exception is caught and logged). -/
def redeem_position (env : RedeemEnv) (pid : Option String) : Bool :=
  match env.redeemResp pid with
  | Except.ok _ => true
  | Except.error _ => false

/-- The `for position in redeemable` loop of `auto_redeem_all`: attempt a
redemption for each position whose value reaches the threshold, counting
the successes and recording the POSTs issued, in order. -/
def autoRedeemGo (threshold : ℚ) (env : RedeemEnv) :
    List RPosition → ℕ × List RedeemReq
  | [] => (0, [])
  | p :: rest =>
    if threshold ≤ p.value.getD 0 then
      let ok := redeem_position env p.id
      let r := autoRedeemGo threshold env rest
      ((if ok then 1 else 0) + r.1, RedeemReq.postRedeem p.id :: r.2)
    else autoRedeemGo threshold env rest

/-- `AutoRedeem.auto_redeem_all`: return 0 with no venue request when
auto-redeem is disabled; otherwise fetch the redeemable positions and run
the redemption loop.  Returns the count of successful redemptions and the
venue requests issued, in order. -/
def auto_redeem_all (enabled : Bool) (threshold : ℚ) (env : RedeemEnv)
    (address : String) : ℕ × List RedeemReq :=
  if enabled then
    let redeemable := check_redeemable_positions env
    let r := autoRedeemGo threshold env redeemable
    (r.1, RedeemReq.getPositions address :: r.2)
  else (0, [])

/-! ## Theorems -/

/-- C5: an open order returned by the venue is selected for the next cancel
batch (the batch cancels exactly `(selectStale ...).map OpenOrder.id`) if
and only if its age, `now` minus its placed timestamp, strictly exceeds
`order_lifetime_ms`; an order at or under the lifetime is never selected. -/
theorem stale_cancel_iff_age_exceeds_lifetime (lifetime now : ℚ)
    (orders : List OpenOrder) (o : OpenOrder) :
    o ∈ selectStale lifetime now orders ↔ o ∈ orders ∧ lifetime < orderAge now o := by
  simp [selectStale, List.mem_filter]

/-- C8: `cleanup` first sets `running` to false, then awaits the cancel-all
for the configured market, and only afterwards performs the close steps;
every step after the cancel-all is a transport/client close, so no close
precedes the cancel-all. -/
theorem cleanup_cancels_before_closing (market_id : String) :
    ∃ closes, cleanup market_id =
        ShutdownStep.setRunningFalse ::
          ShutdownStep.cancelAllOrders market_id :: closes ∧
      ∀ e ∈ closes, isTransportClose e = true := by
  exact ⟨[ShutdownStep.closeRest, ShutdownStep.closeWebSocket,
          ShutdownStep.closeExecutor, ShutdownStep.closeAutoRedeem],
         rfl, by decide⟩

/-- C2 counterexample: a book update whose `sequence` (90) is below the
current book's `sequence` (100) is not dropped: the handler replaces the
book with the incoming one.  The code never reads `sequence` at all, so
the claimed drop/apply/stale-marking behaviour does not hold. -/
theorem stale_sequence_delta_still_applied :
    lookupD [("sequence", 100), ("best_bid", mkRat 2 5)] "sequence" 0 = 100 ∧
    lookupD [("sequence", 90)] "sequence" 0 = 90 ∧
    (90 : ℚ) ≤ 100 ∧
    handle_orderbook_update "m1" [("sequence", 100), ("best_bid", mkRat 2 5)]
        { market := some "m1", book := some [("sequence", 90)] }
      = [("sequence", 90)] ∧
    handle_orderbook_update "m1" [("sequence", 100), ("best_bid", mkRat 2 5)]
        { market := some "m1", book := some [("sequence", 90)] }
      ≠ [("sequence", 100), ("best_bid", mkRat 2 5)] := by
  refine ⟨rfl, rfl, by norm_num, rfl, by decide⟩

/-- C2 amended: the handler applies every incoming book message whose
`market` field equals the configured market id, replacing the current book
wholesale with the message's `book` field (keeping the current book when
that field is absent), and ignores messages for other markets; no sequence
comparison, stale marking, or snapshot request is performed. -/
theorem handle_orderbook_update_characterisation (market_id : String)
    (current : Book) (data : BookMsg) :
    (data.market = some market_id →
      handle_orderbook_update market_id current data = data.book.getD current) ∧
    (data.market ≠ some market_id →
      handle_orderbook_update market_id current data = current) := by
  constructor <;> intro h <;> simp [handle_orderbook_update, h]

/-- Witness for the amended C2 theorem at a concrete message. -/
theorem handle_orderbook_update_characterisation_witness :
    handle_orderbook_update "m1" []
        { market := some "m1", book := some [("best_bid", mkRat 1 2)] }
      = [("best_bid", mkRat 1 2)] :=
  (handle_orderbook_update_characterisation "m1" []
    { market := some "m1", book := some [("best_bid", mkRat 1 2)] }).1 rfl

/-- Concrete settings used by the backoff counterexample. -/
def settingsBk : Settings :=
  { market_id := "m1", quote_refresh_rate_ms := 0, order_lifetime_ms := 60000,
    cancel_replace_interval_ms := 1000, auto_redeem_enabled := false,
    redeem_threshold_usd := 1 }

/-- C3 counterexample: over two consecutive failed iterations the code
sleeps 1 s then 1 s, while the claimed linear backoff (1 s start, 5 s cap)
sleeps 1 s then 2 s; the schedules disagree at the second failure. -/
theorem backoff_schedule_counterexample :
    loopSleeps settingsBk [true, true] = [1, 1] ∧
    specBackoffSleeps settingsBk 0 [true, true] = [1, 2] ∧
    loopSleeps settingsBk [true, true] ≠ specBackoffSleeps settingsBk 0 [true, true] := by
  refine ⟨rfl, ?_, ?_⟩ <;> simp [specBackoffSleeps, specLinearBackoff, loopSleeps,
    iterationSleep, settingsBk] <;> norm_num

/-- C3 amended: whenever an iteration of the cancel-replace loop raises, the
iteration is abandoned and the loop sleeps a fixed 1 second before the next
iteration, independent of the number of consecutive failures. -/
theorem failed_iteration_sleeps_one_second (s : Settings) (outcomes : List Bool)
    (i : ℕ) (h : outcomes[i]? = some true) :
    (loopSleeps s outcomes)[i]? = some 1 := by
  simp [loopSleeps, List.getElem?_map, h, iterationSleep]

/-- Witness for the amended C3 theorem: the second of two failures sleeps 1 s. -/
theorem failed_iteration_sleeps_one_second_witness :
    (loopSleeps settingsBk [false, true])[1]? = some 1 :=
  failed_iteration_sleeps_one_second settingsBk [false, true] 1 rfl

/-- The redemption loop attempts exactly the positions at or above the
threshold, in order, and counts the successful attempts. -/
theorem autoRedeemGo_spec (threshold : ℚ) (env : RedeemEnv) (ps : List RPosition) :
    autoRedeemGo threshold env ps =
      (((ps.filter fun p => threshold ≤ p.value.getD 0).countP
          fun p => redeem_position env p.id),
       (ps.filter fun p => threshold ≤ p.value.getD 0).map
         fun p => RedeemReq.postRedeem p.id) := by
  induction ps with
  | nil => rfl
  | cons p rest ih =>
    by_cases h : threshold ≤ p.value.getD 0
    · simp only [autoRedeemGo, if_pos h, ih, List.filter_cons, decide_eq_true h,
        if_pos, List.countP_cons, List.map_cons, ite_true]
      cases hr : redeem_position env p.id <;>
        simp [hr, List.countP_cons, Nat.add_comm]
    · simp [autoRedeemGo, h, List.filter_cons, ih]

/-- C9: `auto_redeem_all` returns 0 and issues no venue request when
auto-redeem is disabled; when enabled it fetches the redeemable positions,
POSTs a redemption exactly for those whose value reaches
`redeem_threshold_usd` (in order), and returns the number of redemptions
that succeeded. -/
theorem auto_redeem_all_characterisation (enabled : Bool) (threshold : ℚ)
    (env : RedeemEnv) (address : String) :
    (enabled = false → auto_redeem_all enabled threshold env address = (0, [])) ∧
    (enabled = true →
      auto_redeem_all enabled threshold env address =
        ((((check_redeemable_positions env).filter
              fun p => threshold ≤ p.value.getD 0).countP
            fun p => redeem_position env p.id),
         RedeemReq.getPositions address ::
           ((check_redeemable_positions env).filter
              fun p => threshold ≤ p.value.getD 0).map
             fun p => RedeemReq.postRedeem p.id)) := by
  constructor <;> intro h <;> subst h <;>
    simp [auto_redeem_all, autoRedeemGo_spec]

/-- Concrete venue behaviour exercising the C9 theorem: two positions, one
under threshold, one over whose redemption succeeds. -/
def redeemEnvA : RedeemEnv :=
  { positionsResp := Except.ok
      [{ value := some 5, id := some "a" }, { value := some 20, id := some "b" }]
  , redeemResp := fun pid =>
      if pid = some "b" then Except.ok () else Except.error "failed" }

/-- Witness for C9: with threshold 10, only position "b" is attempted and it
succeeds, so the count is 1 and the requests are the GET plus one POST. -/
theorem auto_redeem_all_characterisation_witness :
    auto_redeem_all true 10 redeemEnvA "addr" =
      (1, [RedeemReq.getPositions "addr", RedeemReq.postRedeem (some "b")]) :=
  (auto_redeem_all_characterisation true 10 redeemEnvA "addr").2 rfl

/-- C10: a failed positions request yields the empty list from
`check_redeemable_positions`, a failed redemption POST yields `false` from
`redeem_position` (neither propagates the error), and consequently the
count `auto_redeem_all` returns never exceeds the number of positions
eligible for redemption. -/
theorem auto_redeem_swallows_request_errors (env : RedeemEnv) (threshold : ℚ)
    (address : String) (e : String) :
    (env.positionsResp = Except.error e → check_redeemable_positions env = []) ∧
    (∀ pid, env.redeemResp pid = Except.error e → redeem_position env pid = false) ∧
    (auto_redeem_all true threshold env address).1 ≤
      ((check_redeemable_positions env).filter
          fun p => threshold ≤ p.value.getD 0).length := by
  refine ⟨fun h => ?_, fun pid h => ?_, ?_⟩
  · simp [check_redeemable_positions, h]
  · simp [redeem_position, h]
  · simp only [auto_redeem_all, if_pos, autoRedeemGo_spec]
    exact List.countP_le_length _

/-- Concrete venue behaviour whose positions request raises. -/
def redeemEnvErr : RedeemEnv :=
  { positionsResp := Except.error "http 500"
  , redeemResp := fun _ => Except.error "http 500" }

/-- Witness for C10: with a failing venue, the position list is empty, a
redemption reports failure, and the count is within the eligible count. -/
theorem auto_redeem_swallows_request_errors_witness :
    check_redeemable_positions redeemEnvErr = [] ∧
    redeem_position redeemEnvErr (some "a") = false ∧
    (auto_redeem_all true 10 redeemEnvErr "addr").1 ≤
      ((check_redeemable_positions redeemEnvErr).filter
          fun p => (10 : ℚ) ≤ p.value.getD 0).length :=
  ⟨(auto_redeem_swallows_request_errors redeemEnvErr 10 "addr" "http 500").1 rfl,
   (auto_redeem_swallows_request_errors redeemEnvErr 10 "addr" "http 500").2.1
     (some "a") rfl,
   (auto_redeem_swallows_request_errors redeemEnvErr 10 "addr" "http 500").2.2⟩

/-- Whether an event is a placement submitted to the venue. -/
def isPlaceEvent : Event → Bool
  | Event.placeOrder _ _ => true
  | _ => false

/-- Whether an event is a batch cancellation. -/
def isCancelEvent : Event → Bool
  | Event.cancelBatch _ => true
  | _ => false

/-- A throttled cycle does nothing. -/
theorem refresh_quotes_throttled (s : Settings) (env : Env) (st : BotState)
    (mi : MarketInfo) (ht : env.now - st.last_quote_time < s.quote_refresh_rate_ms) :
    refresh_quotes s env st mi = (st, []) := by
  unfold refresh_quotes
  rw [if_pos ht]

/-- An unthrottled cycle's events are the fetch events followed by the
book-cycle events on the settled book. -/
theorem refresh_quotes_events (s : Settings) (env : Env) (st : BotState)
    (mi : MarketInfo)
    (ht : ¬ env.now - st.last_quote_time < s.quote_refresh_rate_ms) :
    (refresh_quotes s env st mi).2 =
      (refreshFetch env { st with last_quote_time := env.now }).2
        ++ bookCycleEvents s env
             (refreshFetch env { st with last_quote_time := env.now }).1.current_orderbook
             mi := by
  unfold refresh_quotes
  rw [if_neg ht]

/-- The fetch step emits no event or exactly the REST book fetch. -/
theorem refreshFetch_events_cases (env : Env) (st : BotState) :
    (refreshFetch env st).2 = [] ∨ (refreshFetch env st).2 = [Event.fetchBook] := by
  unfold refreshFetch
  cases hb : st.current_orderbook.isEmptyDict
  · simp [hb]
  · cases env.fetchedBook <;> simp [hb]

/-- Stale-order cancellation emits nothing or exactly one batch cancel. -/
theorem cancel_stale_orders_shape (lifetime now : ℚ)
    (fetched : Option (List OpenOrder)) :
    cancel_stale_orders lifetime now fetched = [] ∨
      ∃ ids, cancel_stale_orders lifetime now fetched = [Event.cancelBatch ids] := by
  cases fetched with
  | none => exact Or.inl rfl
  | some orders =>
    unfold cancel_stale_orders
    cases h : ((selectStale lifetime now orders).map OpenOrder.id).isEmpty
    · exact Or.inr ⟨(selectStale lifetime now orders).map OpenOrder.id, by simp [h]⟩
    · exact Or.inl (by simp [h])

/-- Every event `_place_quote` emits is the validated placement or a
risk rejection. -/
theorem mem_place_quote (env : Env) (q' : Quote) (o' : String) (e : Event)
    (he : e ∈ place_quote env q' o') :
    (e = Event.placeOrder q' o' ∧
      (env.validate q'.side (q'.size * q'.price)).1 = true) ∨
    (∃ r, e = Event.rejectQuote o' r) := by
  unfold place_quote at he
  cases hv : (env.validate q'.side (q'.size * q'.price)).1
  · simp [hv] at he
    exact Or.inr ⟨_, he⟩
  · simp [hv] at he
    exact Or.inl ⟨he, rfl⟩

/-- A placement event coming out of an optional quote passed validation. -/
theorem optional_quote_place_validated (env : Env) (q? : Option Quote) (o' : String)
    (q : Quote) (o : String)
    (h : Event.placeOrder q o ∈ optional_quote_events env q? o') :
    (env.validate q.side (q.size * q.price)).1 = true := by
  cases q? with
  | none => simp [optional_quote_events] at h
  | some q1 =>
    rcases mem_place_quote env q1 o' _ h with ⟨h1, h2⟩ | ⟨r, h1⟩
    · injection h1 with hq ho
      subst hq
      exact h2
    · simp at h1

/-- Optional-quote events are never cancellations. -/
theorem optional_quote_events_no_cancel (env : Env) (q? : Option Quote)
    (o' : String) :
    ∀ e ∈ optional_quote_events env q? o', isCancelEvent e = false := by
  intro e he
  cases q? with
  | none => simp [optional_quote_events] at he
  | some q1 =>
    rcases mem_place_quote env q1 o' e he with ⟨h1, -⟩ | ⟨r, h1⟩ <;> subst h1 <;> rfl

/-- A placement event inside the book-cycle tail passed validation. -/
theorem bookCycle_place_validated (s : Settings) (env : Env) (ob : Book)
    (mi : MarketInfo) (q : Quote) (o : String)
    (h : Event.placeOrder q o ∈ bookCycleEvents s env ob mi) :
    (env.validate q.side (q.size * q.price)).1 = true := by
  unfold bookCycleEvents at h
  by_cases hv : lookupD ob "best_bid" 0 ≤ 0 ∨ lookupD ob "best_ask" 1 ≤ 1
  · simp [hv] at h
  · rw [if_neg hv, List.append_assoc, List.mem_append, List.mem_append] at h
    rcases h with hc | h | h
    · rcases cancel_stale_orders_shape s.order_lifetime_ms env.now env.openOrders with
        h0 | ⟨ids, h0⟩ <;> rw [h0] at hc <;> simp at hc
    · exact optional_quote_place_validated env _ "YES" q o h
    · exact optional_quote_place_validated env _ "NO" q o h

/-- The book-cycle tail splits into a placement-free prefix and a
cancellation-free suffix. -/
theorem bookCycle_split (s : Settings) (env : Env) (ob : Book) (mi : MarketInfo) :
    ∃ pre post, bookCycleEvents s env ob mi = pre ++ post ∧
      (∀ e ∈ pre, isPlaceEvent e = false) ∧
      (∀ e ∈ post, isCancelEvent e = false) := by
  unfold bookCycleEvents
  by_cases hv : lookupD ob "best_bid" 0 ≤ 0 ∨ lookupD ob "best_ask" 1 ≤ 1
  · exact ⟨[], [], by simp [hv], by simp, by simp⟩
  · refine ⟨cancel_stale_orders s.order_lifetime_ms env.now env.openOrders,
      optional_quote_events env
          (env.genQuotes s.market_id (lookupD ob "best_bid" 0) (lookupD ob "best_ask" 1)
            (mi.yes_token_id.getD "") (mi.no_token_id.getD "")).1 "YES"
        ++ optional_quote_events env
            (env.genQuotes s.market_id (lookupD ob "best_bid" 0) (lookupD ob "best_ask" 1)
              (mi.yes_token_id.getD "") (mi.no_token_id.getD "")).2 "NO",
      by rw [if_neg hv, List.append_assoc], ?_, ?_⟩
    · intro e he
      rcases cancel_stale_orders_shape s.order_lifetime_ms env.now env.openOrders with
        h0 | ⟨ids, h0⟩ <;> rw [h0] at he <;> simp at he
      subst he
      rfl
    · intro e he
      rcases List.mem_append.mp he with h1 | h1
      · exact optional_quote_events_no_cancel env _ "YES" e h1
      · exact optional_quote_events_no_cancel env _ "NO" e h1

/-- C7: in every quoting cycle the emitted actions split into a prefix free
of placements (the fetch and the stale-order cancellation) followed by a
suffix free of cancellations (the placements and rejections), so the
cycle's batch cancel is always issued before any of its placements. -/
theorem cancellation_precedes_placement (s : Settings) (env : Env)
    (st : BotState) (mi : MarketInfo) :
    ∃ pre post, (refresh_quotes s env st mi).2 = pre ++ post ∧
      (∀ e ∈ pre, isPlaceEvent e = false) ∧
      (∀ e ∈ post, isCancelEvent e = false) := by
  by_cases ht : env.now - st.last_quote_time < s.quote_refresh_rate_ms
  · exact ⟨[], [], by simp [refresh_quotes_throttled s env st mi ht], by simp, by simp⟩
  · obtain ⟨pre, post, hsplit, hpre, hpost⟩ :=
      bookCycle_split s env
        (refreshFetch env { st with last_quote_time := env.now }).1.current_orderbook mi
    refine ⟨(refreshFetch env { st with last_quote_time := env.now }).2 ++ pre,
      post, ?_, ?_, hpost⟩
    · rw [refresh_quotes_events s env st mi ht, hsplit, List.append_assoc]
    · intro e he
      rcases List.mem_append.mp he with hf | hp
      · rcases refreshFetch_events_cases env { st with last_quote_time := env.now } with
          h0 | h0 <;> rw [h0] at hf
        · simp at hf
        · simp at hf
          subst hf
          rfl
      · exact hpre e hp

/-- C6: a quote is submitted to the venue within a cycle only if the risk
check accepted its notional `size * price`; a quote the risk check rejects
produces exactly the logged rejection (a normal return, not an error) and
is never submitted. -/
theorem risk_gate_controls_placement (s : Settings) (env : Env) (st : BotState)
    (mi : MarketInfo) (q : Quote) (o : String) :
    (Event.placeOrder q o ∈ (refresh_quotes s env st mi).2 →
      (env.validate q.side (q.size * q.price)).1 = true) ∧
    ((env.validate q.side (q.size * q.price)).1 = false →
      place_quote env q o =
        [Event.rejectQuote o (env.validate q.side (q.size * q.price)).2] ∧
      Event.placeOrder q o ∉ place_quote env q o) := by
  constructor
  · intro h
    by_cases ht : env.now - st.last_quote_time < s.quote_refresh_rate_ms
    · rw [refresh_quotes_throttled s env st mi ht] at h
      simp at h
    · rw [refresh_quotes_events s env st mi ht, List.mem_append] at h
      rcases h with hf | hb
      · rcases refreshFetch_events_cases env { st with last_quote_time := env.now } with
          h0 | h0 <;> rw [h0] at hf <;> simp at hf
      · exact bookCycle_place_validated s env _ mi q o hb
  · intro hv
    constructor
    · unfold place_quote
      simp [hv]
    · unfold place_quote
      simp [hv]

/-- Settings shared by the concrete quoting-cycle scenarios. -/
def settingsQ : Settings :=
  { market_id := "m1", quote_refresh_rate_ms := 0, order_lifetime_ms := 60000,
    cancel_replace_interval_ms := 1000, auto_redeem_enabled := false,
    redeem_threshold_usd := 1 }

/-- Environment whose risk check rejects everything. -/
def envRej : Env :=
  { now := 1000, fetchedBook := none,
    genQuotes := fun _ _ _ _ _ => (none, none),
    validate := fun _ _ => (false, "exceeds_max_exposure"),
    openOrders := some [] }

/-- A concrete candidate quote. -/
def quoteRej : Quote :=
  { market := "m1", token_id := "tokY", side := "BUY", price := mkRat 1 2, size := 10 }

/-- Witness for C6: a risk-rejected quote yields only the logged rejection
and no venue submission. -/
theorem risk_gate_controls_placement_witness :
    place_quote envRej quoteRej "YES" =
      [Event.rejectQuote "YES" "exceeds_max_exposure"] ∧
    Event.placeOrder quoteRej "YES" ∉ place_quote envRej quoteRej "YES" :=
  (risk_gate_controls_placement settingsQ envRej ⟨[], 0⟩ ⟨none, none⟩
    quoteRej "YES").2 rfl

/-- A concrete YES quote for the valid-book scenario. -/
def quoteBid : Quote :=
  { market := "m1", token_id := "tokY", side := "BUY", price := mkRat 49 100, size := 10 }

/-- Environment for the valid-book scenario: the QuoteEngine would produce a
quote and the risk check would accept it. -/
def envValidBook : Env :=
  { now := 1000, fetchedBook := none,
    genQuotes := fun _ _ _ _ _ => (some quoteBid, none),
    validate := fun _ _ => (true, ""),
    openOrders := some [] }

/-- Book state with `best_bid = 0.49`, `best_ask = 0.51`: a well-formed
binary-market book (`0 < best_bid` and `best_ask < 1`). -/
def stValidBook : BotState :=
  { current_orderbook := [("best_bid", mkRat 49 100), ("best_ask", mkRat 51 100)],
    last_quote_time := 0 }

/-- C1: on the book `best_bid = 0.49`, `best_ask = 0.51` — valid per the
spec since `0 < best_bid` and `best_ask < 1` — the code's check
`best_bid <= 0 or best_ask <= 1` still fires (0.51 ≤ 1), so the cycle
returns with no cancellation and no placement even though the QuoteEngine
would produce a quote and the risk check would accept it. -/
theorem valid_book_still_suppressed :
    (0 : ℚ) < lookupD stValidBook.current_orderbook "best_bid" 0 ∧
    lookupD stValidBook.current_orderbook "best_ask" 1 < 1 ∧
    (refresh_quotes settingsQ envValidBook stValidBook
        ⟨some "tokY", some "tokN"⟩).2 = [] := by
  refine ⟨by decide, by decide, ?_⟩
  rw [refresh_quotes_events settingsQ envValidBook stValidBook
    ⟨some "tokY", some "tokN"⟩ (by norm_num [envValidBook, stValidBook, settingsQ])]
  rfl

/-- Quote produced in the empty-book refill scenario. -/
def quoteRefill : Quote :=
  { market := "m1", token_id := "tokY", side := "BUY", price := mkRat 2 5, size := 10 }

/-- Environment for the empty-book scenario: the REST refill returns a book
the code's validity check accepts (`best_bid = 0.5 > 0`,
`best_ask = 1.5 > 1`). -/
def envRefill : Env :=
  { now := 1000,
    fetchedBook := some [("best_bid", mkRat 1 2), ("best_ask", mkRat 3 2)],
    genQuotes := fun _ _ _ _ _ => (some quoteRefill, none),
    validate := fun _ _ => (true, ""),
    openOrders := some [] }

/-- C4 counterexample: a cycle that starts with an empty orderbook snapshot
issues the REST refill and then, in the same cycle, places a quote from the
refreshed book — it does not skip the rest of the cycle. -/
theorem empty_book_cycle_still_places :
    (⟨[], 0⟩ : BotState).current_orderbook = [] ∧
    (refresh_quotes settingsQ envRefill ⟨[], 0⟩ ⟨some "tokY", some "tokN"⟩).2 =
      [Event.fetchBook, Event.placeOrder quoteRefill "YES"] := by
  refine ⟨rfl, ?_⟩
  rw [refresh_quotes_events settingsQ envRefill ⟨[], 0⟩
    ⟨some "tokY", some "tokN"⟩ (by norm_num [envRefill, settingsQ])]
  rfl

/-- C4 amended: a cycle whose orderbook snapshot is empty requests the REST
refill and then continues the same cycle on the refreshed book (the fetch
result, or the still-empty book when the fetch raised): the remainder of
the cycle is skipped exactly when the refreshed book fails the code's
validity check, in which case the fetch is the cycle's only action. -/
theorem empty_book_refill_continues_cycle (s : Settings) (env : Env)
    (st : BotState) (mi : MarketInfo)
    (ht : ¬ env.now - st.last_quote_time < s.quote_refresh_rate_ms)
    (hempty : st.current_orderbook = []) :
    (refresh_quotes s env st mi).2 =
      Event.fetchBook :: bookCycleEvents s env (env.fetchedBook.getD []) mi ∧
    ((lookupD (env.fetchedBook.getD []) "best_bid" 0 ≤ 0 ∨
        lookupD (env.fetchedBook.getD []) "best_ask" 1 ≤ 1) →
      (refresh_quotes s env st mi).2 = [Event.fetchBook]) := by
  have hfr : refreshFetch env { st with last_quote_time := env.now } =
      ({ current_orderbook := env.fetchedBook.getD [],
         last_quote_time := env.now }, [Event.fetchBook]) := by
    unfold refreshFetch
    cases hb : env.fetchedBook <;> simp [hempty, Book.isEmptyDict]
  have hev : (refresh_quotes s env st mi).2 =
      Event.fetchBook :: bookCycleEvents s env (env.fetchedBook.getD []) mi := by
    rw [refresh_quotes_events s env st mi ht, hfr]
    rfl
  refine ⟨hev, fun hinv => ?_⟩
  rw [hev]
  unfold bookCycleEvents
  rw [if_pos hinv]

/-- Environment for the failed-refill witness: the REST fetch raised, the
book stays empty, and the cycle stops after the fetch. -/
def envRefillFail : Env :=
  { now := 1000, fetchedBook := none,
    genQuotes := fun _ _ _ _ _ => (none, none),
    validate := fun _ _ => (true, ""),
    openOrders := some [] }

/-- Witness for the amended C4 theorem: with an empty book and a failed
refill, the cycle's only action is the REST fetch. -/
theorem empty_book_refill_continues_cycle_witness :
    (refresh_quotes settingsQ envRefillFail ⟨[], 0⟩ ⟨none, none⟩).2 =
      [Event.fetchBook] :=
  (empty_book_refill_continues_cycle settingsQ envRefillFail ⟨[], 0⟩ ⟨none, none⟩
    (by norm_num [envRefillFail, settingsQ]) rfl).2
    (by simp [envRefillFail, lookupD])

end PolyBot
